import Mathlib

/-!
Verification of the extraction-and-normalization core of the SRX price
index scraper (src/scrape_srx_price_index.py) and its companion batch
re-normalizer (src/process_and_zip.py).

Modelling conventions:
* Python strings are modelled as lists of characters (`Str`); the Python
  string primitives used by the source (strip, split, capitalize, lower,
  replace) are modelled by structurally recursive functions over `Str`,
  restricted to ASCII behaviour, which covers every string the source
  manipulates.
* A pandas DataFrame carrying a Date column is modelled as a list of rows,
  one row being the Date cell paired with the list of remaining cells.
* `DataFrame.sort_values` on the derived sort-key column is modelled by the
  contract pandas documents for its default quicksort kind: the outcome is
  some permutation of the rows, ascending in the key column, with the order
  of equal-key rows unspecified (the default kind is documented as not
  stable); keys are compared lexicographically by code point as Python
  compares strings.
* Selenium page state is modelled abstractly: a table read yields a list of
  rows of cell texts, the pagination control is a record of the observable
  flags the source inspects, and dropdown discovery is a record of which
  named controls resolve plus the number of generic select elements.
-/

/-- A Python string, modelled as its list of characters. -/
abbrev Str := List Char

/-- Python str.strip() with ASCII whitespace: drop leading and trailing
whitespace characters. -/
def pyStrip (s : Str) : Str :=
  ((s.dropWhile Char.isWhitespace).reverse.dropWhile Char.isWhitespace).reverse

/-- Python str.split(sep) for a one-character separator: split at every
occurrence of the separator, keeping empty parts.  The result is always
nonempty. -/
def pySplitChar (sep : Char) : Str → List Str
  | [] => [[]]
  | c :: rest =>
    if c = sep then [] :: pySplitChar sep rest
    else
      match pySplitChar sep rest with
      | [] => [[c]]
      | t :: ts => (c :: t) :: ts

/-- Python str.split() with no argument: split on runs of whitespace,
dropping empty parts. -/
def pySplitWs : Str → List Str
  | [] => []
  | [c] => if c.isWhitespace then [] else [[c]]
  | c :: d :: rest =>
    if c.isWhitespace then pySplitWs (d :: rest)
    else if d.isWhitespace then [c] :: pySplitWs (d :: rest)
    else
      match pySplitWs (d :: rest) with
      | [] => [[c]]
      | t :: ts => (c :: t) :: ts

/-- Python str.capitalize() on ASCII input: first character uppercased, the
remaining characters lowercased. -/
def pyCapitalize : Str → Str
  | [] => []
  | c :: rest => c.toUpper :: rest.map Char.toLower

/-- Python str.lower() on ASCII input. -/
def pyLower (s : Str) : Str := s.map Char.toLower

/-- MONTH_MAP of process_and_zip.py (the identical dict literal also appears
inside Scraper.process_dates): month abbreviation to zero-padded month
number. -/
def MONTH_MAP : List (Str × Str) :=
  [("Jan".data, "01".data), ("Feb".data, "02".data), ("Mar".data, "03".data),
   ("Apr".data, "04".data), ("May".data, "05".data), ("Jun".data, "06".data),
   ("Jul".data, "07".data), ("Aug".data, "08".data), ("Sep".data, "09".data),
   ("Oct".data, "10".data), ("Nov".data, "11".data), ("Dec".data, "12".data)]

/-- NUM_TO_MONTH of process_and_zip.py, derived from MONTH_MAP exactly as in
the source: month number to lowercased abbreviation. -/
def NUM_TO_MONTH : List (Str × Str) := MONTH_MAP.map (fun kv => (kv.2, pyLower kv.1))

namespace ProcessAndZip

/-- The mmm-yyyy branch of parse_date_to_periodM in process_and_zip.py
(lines 40-47): it produces a value exactly when the input contains a hyphen,
splits into exactly two parts on hyphens, and the parts have lengths 3 and
4; the capitalized left part is looked up in MONTH_MAP with default 01.
Returning none models falling through to the whitespace branch. -/
def hyphenBranch (d : Str) : Option Str :=
  if '-' ∈ d ∧ (pySplitChar '-' d).length = 2 then
    match pySplitChar '-' d with
    | [p0, p1] =>
      if p0.length = 3 ∧ p1.length = 4 then
        some (p1 ++ '-' :: ((MONTH_MAP.lookup (pyCapitalize p0)).getD "01".data))
      else none
    | _ => none
  else none

/-- parse_date_to_periodM of process_and_zip.py.  The try/except wrapper of
the source can never fire (every operation in the body is total on
strings), so the function is modelled as total.  The source rebinds
date_str to its stripped value, hence the fallthrough branch returns the
stripped input. -/
def parse_date_to_periodM (d0 : Str) : Str :=
  match hyphenBranch (pyStrip d0) with
  | some r => r
  | none =>
    match pySplitWs (pyStrip d0) with
    | [month_abbr, year] => year ++ '-' :: ((MONTH_MAP.lookup month_abbr).getD "01".data)
    | _ => pyStrip d0

/-- periodM_to_mmm_yyyy of process_and_zip.py: on a two-part split the month
number is looked up in NUM_TO_MONTH with default jan; otherwise the input
is returned unchanged. -/
def periodM_to_mmm_yyyy (p : Str) : Str :=
  match pySplitChar '-' p with
  | [year, month_num] => ((NUM_TO_MONTH.lookup month_num).getD "jan".data) ++ '-' :: year
  | _ => p

end ProcessAndZip

namespace Scraper

/-- The month_map dict literal embedded in process_dates of
scrape_srx_price_index.py (same entries as MONTH_MAP). -/
def month_map : List (Str × Str) :=
  [("Jan".data, "01".data), ("Feb".data, "02".data), ("Mar".data, "03".data),
   ("Apr".data, "04".data), ("May".data, "05".data), ("Jun".data, "06".data),
   ("Jul".data, "07".data), ("Aug".data, "08".data), ("Sep".data, "09".data),
   ("Oct".data, "10".data), ("Nov".data, "11".data), ("Dec".data, "12".data)]

/-- The inner parse_date_to_periodM of process_dates in
scrape_srx_price_index.py.  It only handles the whitespace-separated shape;
its try/except can never fire, and the fallthrough branch returns the
original (unstripped) input, as in the source. -/
def parse_date_to_periodM (d : Str) : Str :=
  match pySplitWs (pyStrip d) with
  | [month_abbr, year] => year ++ '-' :: ((month_map.lookup month_abbr).getD "01".data)
  | _ => d

/-- The inner periodM_to_mmm_yyyy of process_dates in
scrape_srx_price_index.py: reverse lookup of the month number by list
comprehension over month_map; if no abbreviation matches, the input is
returned unchanged. -/
def periodM_to_mmm_yyyy (p : Str) : Str :=
  match pySplitChar '-' p with
  | [year, month_num] =>
    match (month_map.filter (fun kv => kv.2 == month_num)).map Prod.fst with
    | [] => p
    | k :: _ => pyLower k ++ '-' :: year
  | _ => p

end Scraper

/-! ### DataFrame normalization (process_dataframe / process_dates) -/

/-- A DataFrame row with a Date column: the Date cell paired with the list
of remaining cells. -/
abbrev Row := Str × List Str

/-- A row decorated with the derived _sort_key column. -/
abbrev KeyedRow := Str × Row

/-- Comparison of keyed rows by the _sort_key column, lexicographically by
code point, as pandas compares Python strings. -/
def keyLE (a b : KeyedRow) : Prop := a.1 ≤ b.1

instance : DecidableRel keyLE := fun a b => inferInstanceAs (Decidable (a.1 ≤ b.1))

instance : IsTotal KeyedRow keyLE := ⟨fun a b => le_total a.1 b.1⟩

instance : IsTrans KeyedRow keyLE := ⟨fun _ _ _ h1 h2 => le_trans h1 h2⟩

/-- The _sort_key decoration: df.apply(parse) on the Date column, keeping
the row. -/
def keyedRows (parse : Str → Str) (df : List Row) : List KeyedRow :=
  df.map (fun r => (parse r.1, r))

/-- Rewriting the Date column from the _sort_key column and dropping the
key column, as in step 3 of both sources. -/
def relabelRow (display : Str → Str) (kr : KeyedRow) : Row := (display kr.1, kr.2.2)

/-- The contract pandas documents for df.sort_values on the _sort_key
column with the default kind (quicksort): the outcome is some permutation
of the keyed rows that is ascending in the key column.  The default kind is
documented as not stable, so the relative order of rows with equal keys is
not specified; the model therefore keeps the sort outcome abstract,
constrained exactly by what the library guarantees. -/
def SortValuesOutcome (keyed sorted : List KeyedRow) : Prop :=
  sorted.Perm keyed ∧ List.Sorted keyLE sorted

/-- The shared shape of process_dataframe (process_and_zip.py) and
process_dates (scrape_srx_price_index.py), as an input-output relation: an
empty frame passes through unchanged (our model always carries a Date
column, so the missing-column guard of the source is vacuous); otherwise
the _sort_key column is added, the rows are reordered by some outcome
admitted by the sort_values contract, Date is rewritten from the key, and
the key column is dropped. -/
def processRel (parse display : Str → Str) (df out : List Row) : Prop :=
  (df.isEmpty = true ∧ out = df) ∨
  (df.isEmpty = false ∧ ∃ sorted, SortValuesOutcome (keyedRows parse df) sorted ∧
    out = sorted.map (relabelRow display))

/-- process_dataframe of process_and_zip.py, related to its admissible
outputs. -/
def ProcessAndZip.process_dataframe_rel : List Row → List Row → Prop :=
  processRel ProcessAndZip.parse_date_to_periodM ProcessAndZip.periodM_to_mmm_yyyy

/-- process_dates of scrape_srx_price_index.py (its DataFrame core),
related to its admissible outputs. -/
def Scraper.process_dates_rel : List Row → List Row → Prop :=
  processRel Scraper.parse_date_to_periodM Scraper.periodM_to_mmm_yyyy

/-- A date label already in canonical display form: a known lowercase month
abbreviation, a hyphen, and a 4-digit year. -/
def CanonicalDate (d : Str) : Prop :=
  ∃ k v y, (k, v) ∈ MONTH_MAP ∧ d = pyLower k ++ '-' :: y ∧
    y.length = 4 ∧ ∀ c ∈ y, c.isDigit = true

/-! ### Table extraction and pagination (extract_table_data / handle_pagination) -/

/-- A raw table row: the list of cell texts of its td elements. -/
abbrev RawRow := List Str

/-- A raw page: the rows read from one pagination state. -/
abbrev RawPage := List RawRow

/-- The data-row loop of extract_table_data (lines 242-248): a row is kept
when it has at least two td cells and the stripped cell texts are not all
empty (Python truthiness of any(row_data)); a kept row is the list of its
stripped cell texts.  The header-skip handling above those lines is
modelled by taking the post-header rows as input. -/
def extract_table_rows (rows : List (List Str)) : List RawRow :=
  rows.filterMap (fun cells =>
    if 2 ≤ cells.length then
      let row_data := cells.map pyStrip
      if row_data.any (fun c => !c.isEmpty) then some row_data else none
    else none)

/-- The observable state of the pagination-next control, as inspected by
handle_pagination: whether find_element succeeds, whether the element is
displayed, and whether its class or style carries one of the disabled or
hidden markers. -/
structure NextControl where
  found : Bool
  displayed : Bool
  disabledMarker : Bool
deriving DecidableEq

/-- Why the handle_pagination loop stopped. -/
inductive StopReason where
  | duplicatePage
  | emptyPage
  | controlAbsent
  | controlHidden
  | controlDisabled
  | traceExhausted
deriving DecidableEq

/-- The while-loop of handle_pagination, driven by the finite trace of page
reads it will perform, each read paired with the state of the next control
at that moment.  In source order: first the duplicate-content check against
the previous page, then the empty-page check, then accumulation, then the
next-control checks, then the click (modelled by recursing on the rest of
the trace).  `traceExhausted` marks a trace too short to reach a stop
condition; every claim below stops within its trace. -/
def handle_pagination_loop (prev : Option RawPage) (acc : List RawRow) :
    List (RawPage × NextControl) → List RawRow × StopReason
  | [] => (acc, .traceExhausted)
  | (p, b) :: rest =>
    if prev = some p then (acc, .duplicatePage)
    else if p.isEmpty then (acc, .emptyPage)
    else if !b.found then (acc ++ p, .controlAbsent)
    else if !b.displayed then (acc ++ p, .controlHidden)
    else if b.disabledMarker then (acc ++ p, .controlDisabled)
    else handle_pagination_loop (some p) (acc ++ p) rest

/-- handle_pagination of scrape_srx_price_index.py: run the loop with no
previous page and an empty accumulator. -/
def handle_pagination (trace : List (RawPage × NextControl)) : List RawRow × StopReason :=
  handle_pagination_loop none [] trace

/-! ### Dropdown discovery (find_dropdowns / scrape_combination) -/

/-- The page state relevant to dropdown discovery: whether each of the
three id-based lookups of find_dropdowns succeeds, and how many select
elements a generic tag search returns. -/
structure PageControls where
  hasPropertyById : Bool
  hasSaleById : Bool
  hasMarketById : Bool
  genericSelectCount : Nat
deriving DecidableEq

/-- How scrape_combination ends up assigning dropdowns. -/
inductive DropdownAssignment where
  | named (hasProperty hasSale hasMarket : Bool)
  | positional
  | failure
deriving DecidableEq

/-- find_dropdowns of scrape_srx_price_index.py: three independent id
lookups; the returned dict has one entry per lookup that succeeded. -/
def find_dropdowns (pc : PageControls) : Bool × Bool × Bool :=
  (pc.hasPropertyById, pc.hasSaleById, pc.hasMarketById)

/-- The dropdown-resolution phase of scrape_combination: if the dict from
find_dropdowns is nonempty it is used as is; only when it is empty does the
code fall back to the first three generic select elements, and only when at
least 3 exist; otherwise the combination fails and no extraction is
attempted. -/
def resolve_dropdowns (pc : PageControls) : DropdownAssignment :=
  let d := find_dropdowns pc
  if d.1 = true ∨ d.2.1 = true ∨ d.2.2 = true then .named d.1 d.2.1 d.2.2
  else if 3 ≤ pc.genericSelectCount then .positional
  else .failure

/-- The three filter dimensions. -/
inductive Dim where
  | property
  | sale
  | market
deriving DecidableEq

/-- What scrape_combination goes on to do after dropdown resolution: which
dimensions receive a selection attempt, and whether table extraction is
attempted at all. -/
structure CombinationPlan where
  attemptedExtraction : Bool
  selectedDims : List Dim
deriving DecidableEq

/-- The selection-and-extraction plan of scrape_combination: for a named
dict, exactly the keys present get a selection attempt; for the positional
fallback all three dimensions do; on failure the function returns an empty
DataFrame with no extraction. -/
def scrape_combination_plan (pc : PageControls) : CombinationPlan :=
  match resolve_dropdowns pc with
  | .named p s m =>
    ⟨true, (if p then [Dim.property] else []) ++ (if s then [Dim.sale] else []) ++
      (if m then [Dim.market] else [])⟩
  | .positional => ⟨true, [Dim.property, Dim.sale, Dim.market]⟩
  | .failure => ⟨false, []⟩

/-! ### Filenames and archive (generate_filename / create_zip_archive) -/

/-- Python str.replace(" ", "_"): single-character pattern, so a character
map. -/
def replaceSpaceUnderscore (s : Str) : Str :=
  s.map (fun c => if c = ' ' then '_' else c)

/-- One dimension value cleaned for the filename, as in generate_filename:
replace(" ", "_") then lower(). -/
def cleanToken (x : Str) : Str := pyLower (replaceSpaceUnderscore x)

/-- generate_filename of scrape_srx_price_index.py. -/
def generate_filename (p s m : Str) : Str :=
  "srx_price_index_".data ++ cleanToken p ++ '_' :: cleanToken s ++ '_' ::
    cleanToken m ++ ".txt".data

/-- The three dropdown option lists fixed in the scraper constructor. -/
def property_types : List Str :=
  ["Private Non-Landed".data, "Private Landed".data, "HDB".data]

/-- Sale type options fixed in the scraper constructor. -/
def sale_types : List Str := ["All Sale".data, "Resale".data]

/-- Market segment options fixed in the scraper constructor. -/
def market_segments : List Str :=
  ["All".data, "Core Central".data, "Rest of Central".data, "Outside Central".data]

/-- Every dataset filename the run can persist: one per combination, in
sweep order. -/
def all_run_filenames : List Str :=
  property_types.flatMap (fun p =>
    sale_types.flatMap (fun s =>
      market_segments.map (fun m => generate_filename p s m)))

/-- Python str.replace(".txt", ".csv"), specialised to the fixed pattern
used by both create_zip_archive implementations: leftmost, non-overlapping
replacement of every occurrence. -/
def replaceTxtWithCsv : Str → Str
  | '.' :: 't' :: 'x' :: 't' :: rest => '.' :: 'c' :: 's' :: 'v' :: replaceTxtWithCsv rest
  | c :: rest => c :: replaceTxtWithCsv rest
  | [] => []

/-- create_zip_archive (both sources): given the globbed dataset files as
pairs of basename and content bytes, the archive holds one entry per file,
named by replace(".txt", ".csv") and carrying the identical content bytes
(zipf.write copies the file).  The source files themselves are read only,
never renamed or rewritten. -/
def create_zip_archive {α : Type} (files : List (Str × α)) : List (Str × α) :=
  files.map (fun f => (replaceTxtWithCsv f.1, f.2))

/-! ### Helper lemmas -/

theorem hyphenBranch_eq_none {d : Str} (h : '-' ∉ d) :
    ProcessAndZip.hyphenBranch d = none := by
  rw [ProcessAndZip.hyphenBranch, if_neg (fun hc => h hc.1)]

theorem month_map_eq_MONTH_MAP : Scraper.month_map = MONTH_MAP := rfl

theorem dropWhile_cons_of_neg {p : Char → Bool} {c : Char} {t : Str} (h : p c = false) :
    List.dropWhile p (c :: t) = c :: t := by
  simp [List.dropWhile, h]

theorem pyStrip_eq_self {c : Char} {t : Str} (hc : c.isWhitespace = false)
    (hlast : (t.getLastD c).isWhitespace = false) :
    pyStrip (c :: t) = c :: t := by
  unfold pyStrip
  rw [dropWhile_cons_of_neg hc]
  rcases List.eq_nil_or_concat t with rfl | ⟨mid, d, rfl⟩
  · simp [List.dropWhile, hc]
  · have hd : d.isWhitespace = false := by
      simpa [List.concat_eq_append, List.getLastD_concat] using hlast
    rw [show (c :: mid.concat d).reverse = d :: (c :: mid).reverse by simp]
    rw [dropWhile_cons_of_neg hd]
    simp

theorem pySplitChar_not_mem {sep : Char} {s : Str} (h : sep ∉ s) : pySplitChar sep s = [s] := by
  induction s with
  | nil => rfl
  | cons c t ih =>
    have hc : ¬ c = sep := by
      rintro rfl
      exact h (List.mem_cons_self c t)
    have ht : sep ∉ t := fun hm => h (List.mem_cons_of_mem _ hm)
    rw [pySplitChar, if_neg hc, ih ht]

theorem pySplitChar_append {sep : Char} {a b : Str} (ha : sep ∉ a) (hb : sep ∉ b) :
    pySplitChar sep (a ++ sep :: b) = [a, b] := by
  induction a with
  | nil =>
    simp only [List.nil_append]
    rw [pySplitChar, if_pos rfl, pySplitChar_not_mem hb]
  | cons c t ih =>
    have hc : ¬ c = sep := by
      rintro rfl
      exact ha (List.mem_cons_self c t)
    have ht : sep ∉ t := fun hm => ha (List.mem_cons_of_mem _ hm)
    rw [List.cons_append, pySplitChar, if_neg hc, ih ht]

theorem isDigit_not_ws {c : Char} (h : c.isDigit = true) : c.isWhitespace = false := by
  cases hw : c.isWhitespace
  · rfl
  · exfalso
    have hor : ((c = ' ' ∨ c = '\t') ∨ c = '\r') ∨ c = '\n' := by
      simpa [Char.isWhitespace] using hw
    rcases hor with ((rfl | rfl) | rfl) | rfl <;> exact absurd h (by decide)

theorem isDigit_ne_hyphen {c : Char} (h : c.isDigit = true) : c ≠ '-' := by
  rintro rfl
  exact absurd h (by decide)

/-! ### Claim C3: duplicate-page termination of pagination -/

/-- Claim C3: for page reads P1, P2, P2 (the third read equal to the
second, both pages nonempty and distinct, the next control visible and
enabled throughout), pagination terminates via the duplicate-content check
after the repeated read and returns exactly rows(P1) ++ rows(P2), with no
page accumulated twice.  The control state at the third read is arbitrary:
it is never consulted. -/
theorem claim_C3 (P1 P2 : RawPage) (b3 : NextControl)
    (hne : P1 ≠ P2) (h1 : P1 ≠ []) (h2 : P2 ≠ []) :
    handle_pagination [(P1, ⟨true, true, false⟩), (P2, ⟨true, true, false⟩), (P2, b3)] =
      (P1 ++ P2, .duplicatePage) := by
  have e1 : P1.isEmpty = false := by simpa [List.isEmpty_iff] using h1
  have e2 : P2.isEmpty = false := by simpa [List.isEmpty_iff] using h2
  simp [handle_pagination, handle_pagination_loop, e1, e2, hne]

theorem claim_C3_witness :
    handle_pagination
      [([["Nov 2025".data, "100".data]], ⟨true, true, false⟩),
       ([["Oct 2025".data, "99".data]], ⟨true, true, false⟩),
       ([["Oct 2025".data, "99".data]], ⟨true, true, false⟩)] =
      ([["Nov 2025".data, "100".data], ["Oct 2025".data, "99".data]], .duplicatePage) :=
  claim_C3 _ _ _ (by decide) (by decide) (by decide)

/-! ### Claim C10: empty-page termination of pagination -/

/-- Claim C10: when the current read yields zero rows (and the previous
page, if any, was nonempty), the loop stops at once with only the rows
accumulated so far, without consulting the next control (the result does
not depend on the control state), and an empty first page yields an empty
result. -/
theorem claim_C10 (prev : Option RawPage) (acc : List RawRow)
    (b bAlt : NextControl) (rest : List (RawPage × NextControl))
    (hprev : prev ≠ some ([] : RawPage)) :
    handle_pagination_loop prev acc (([], b) :: rest) = (acc, .emptyPage) ∧
    handle_pagination_loop prev acc (([], b) :: rest) =
      handle_pagination_loop prev acc (([], bAlt) :: rest) ∧
    handle_pagination ((([] : RawPage), b) :: rest) = ([], .emptyPage) := by
  have h : ∀ b0 : NextControl,
      handle_pagination_loop prev acc (([], b0) :: rest) = (acc, .emptyPage) := by
    intro b0
    rw [handle_pagination_loop, if_neg hprev]
    rfl
  refine ⟨h b, by rw [h b, h bAlt], ?_⟩
  rw [handle_pagination, handle_pagination_loop]
  rfl

theorem claim_C10_witness :
    handle_pagination_loop (some [["x".data]]) [["x".data]]
      (([], ⟨true, true, false⟩) :: []) = ([["x".data]], .emptyPage) :=
  (claim_C10 (some [["x".data]]) [["x".data]] ⟨true, true, false⟩ ⟨false, false, true⟩ []
    (by decide)).1

/-! ### Claim C5: dropdown fallback policy -/

/-- Claim C5 counterexample: with exactly one named control located (so
fewer than 3) and 3 generic select elements available, the code does not
fall back to positional assignment: it proceeds with the single named
control and selects only that dimension. -/
theorem claim_C5_counterexample :
    resolve_dropdowns ⟨true, false, false, 3⟩ = .named true false false ∧
    resolve_dropdowns ⟨true, false, false, 3⟩ ≠ .positional ∧
    (scrape_combination_plan ⟨true, false, false, 3⟩).selectedDims = [Dim.property] := by
  decide

/-- Claim C5 amended: only when none of the three named controls is located
does the code fall back to positional assignment over the generic select
elements (when at least 3 exist, all three dimensions are assigned and
extraction proceeds); with zero named controls and fewer than 3 generic
controls, the combination fails and no extraction is attempted. -/
theorem claim_C5_amended (pc : PageControls)
    (hnone : pc.hasPropertyById = false ∧ pc.hasSaleById = false ∧ pc.hasMarketById = false) :
    (3 ≤ pc.genericSelectCount →
      resolve_dropdowns pc = .positional ∧
      scrape_combination_plan pc = ⟨true, [Dim.property, Dim.sale, Dim.market]⟩) ∧
    (pc.genericSelectCount < 3 →
      resolve_dropdowns pc = .failure ∧
      scrape_combination_plan pc = ⟨false, []⟩) := by
  obtain ⟨h1, h2, h3⟩ := hnone
  constructor
  · intro hge
    have hres : resolve_dropdowns pc = .positional := by
      simp [resolve_dropdowns, find_dropdowns, h1, h2, h3, hge]
    exact ⟨hres, by simp [scrape_combination_plan, hres]⟩
  · intro hlt
    have hnle : ¬ 3 ≤ pc.genericSelectCount := by omega
    have hres : resolve_dropdowns pc = .failure := by
      simp [resolve_dropdowns, find_dropdowns, h1, h2, h3, hnle]
    exact ⟨hres, by simp [scrape_combination_plan, hres]⟩

theorem claim_C5_witness :
    resolve_dropdowns ⟨false, false, false, 3⟩ = .positional ∧
    scrape_combination_plan ⟨false, false, false, 3⟩ =
      ⟨true, [Dim.property, Dim.sale, Dim.market]⟩ :=
  (claim_C5_amended ⟨false, false, false, 3⟩ (by decide)).1 (by decide)

/-! ### Claim C7: the row filter of extract_table_data -/

/-- Claim C7 counterexample: a row whose cells are an empty string and one
nonempty string has only one nonempty cell, yet it is kept (it has 2 td
cells and not all cells are empty), refuting the reading that rows with
fewer than 2 nonempty cells are dropped. -/
theorem claim_C7_counterexample :
    extract_table_rows [[[], "5.2".data]] = [[[], "5.2".data]] ∧
    (([[], "5.2".data] : RawRow).countP (fun c => !c.isEmpty)) = 1 := by
  decide

/-- Claim C7 amended: every accumulated row (and hence every row taking
part in the duplicate-page comparison) has at least 2 cells and at least
one nonempty cell; conversely, a row with fewer than 2 td cells, or whose
stripped cells are all empty, contributes nothing to the extracted data. -/
theorem claim_C7_amended (rows : List (List Str)) (r : RawRow)
    (h : r ∈ extract_table_rows rows) :
    (2 ≤ r.length ∧ r.any (fun c => !c.isEmpty) = true) ∧
    (∀ cells : List Str, cells.length < 2 → extract_table_rows [cells] = []) ∧
    (∀ cells : List Str, (cells.map pyStrip).any (fun c => !c.isEmpty) = false →
      extract_table_rows [cells] = []) := by
  refine ⟨?_, ?_, ?_⟩
  · simp only [extract_table_rows, List.mem_filterMap] at h
    obtain ⟨cells, _, he⟩ := h
    split at he
    · split at he
      · obtain rfl : cells.map pyStrip = r := by simpa using he
        refine ⟨by simpa using ‹2 ≤ cells.length›, ?_⟩
        assumption
      · simp at he
    · simp at he
  · intro cells hlt
    have hnle : ¬ 2 ≤ cells.length := by omega
    simp [extract_table_rows, hnle]
  · intro cells hempty
    by_cases h2 : 2 ≤ cells.length
    · simp [extract_table_rows, h2, hempty]
      intro x hx
      have hm := List.any_eq_false.mp hempty (pyStrip x) (List.mem_map_of_mem pyStrip hx)
      simpa using hm
    · simp [extract_table_rows, h2]

theorem claim_C7_witness :
    2 ≤ (["ab".data, "1".data] : RawRow).length ∧
    (["ab".data, "1".data] : RawRow).any (fun c => !c.isEmpty) = true :=
  (claim_C7_amended [["ab".data, "1".data]] ["ab".data, "1".data] (by decide)).1

/-! ### Claim C2: the two date parsers are not the same function -/

/-- Claim C2 counterexample: on the already-canonical label nov-2025 the
batch re-normalizer converts to the PeriodKey 2025-11, while the live
scraper returns the label unchanged (its parser has no canonical-form
branch), so the two parsers are not the same function. -/
theorem claim_C2_counterexample :
    Scraper.parse_date_to_periodM "nov-2025".data = "nov-2025".data ∧
    ProcessAndZip.parse_date_to_periodM "nov-2025".data = "2025-11".data ∧
    Scraper.parse_date_to_periodM "nov-2025".data ≠
      ProcessAndZip.parse_date_to_periodM "nov-2025".data := by
  decide

/-- Claim C2 amended: only the batch re-normalizer accepts the canonical
mmm-yyyy shape; the scraper parser handles only the whitespace shape and
returns canonical labels unchanged.  The two parsers do agree on every
input that contains no hyphen and carries no surrounding whitespace. -/
theorem claim_C2_amended (s : Str) (h1 : '-' ∉ s) (h2 : pyStrip s = s) :
    Scraper.parse_date_to_periodM s = ProcessAndZip.parse_date_to_periodM s := by
  rw [Scraper.parse_date_to_periodM, ProcessAndZip.parse_date_to_periodM, h2,
    hyphenBranch_eq_none h1, month_map_eq_MONTH_MAP]

theorem claim_C2_amended_witness :
    Scraper.parse_date_to_periodM "Nov 2025".data =
      ProcessAndZip.parse_date_to_periodM "Nov 2025".data :=
  claim_C2_amended "Nov 2025".data (by decide) (by decide)

/-! ### Claim C4: unknown month abbreviations -/

/-- Claim C4 counterexample: for the label Xyz 2025, whose month token is
unknown, both parsers return 2025-01 by silent dictionary default; no
DateParseError exists in the code and nothing records the offending label:
the result is indistinguishable from parsing Jan 2025. -/
theorem claim_C4_counterexample :
    ProcessAndZip.parse_date_to_periodM "Xyz 2025".data = "2025-01".data ∧
    Scraper.parse_date_to_periodM "Xyz 2025".data = "2025-01".data ∧
    ProcessAndZip.parse_date_to_periodM "Xyz 2025".data =
      ProcessAndZip.parse_date_to_periodM "Jan 2025".data := by
  decide

/-- Claim C4 amended: a two-token label whose month token is not a key of
the month dictionary is silently mapped to the default month 01, yielding
yyyy-01, in both parsers; no error is raised or reported and the batch is
not aborted. -/
theorem claim_C4_amended (s mon y : Str)
    (hws : pySplitWs (pyStrip s) = [mon, y])
    (hh : '-' ∉ pyStrip s)
    (hlook : MONTH_MAP.lookup mon = none) :
    ProcessAndZip.parse_date_to_periodM s = y ++ "-01".data ∧
    Scraper.parse_date_to_periodM s = y ++ "-01".data := by
  constructor
  · rw [ProcessAndZip.parse_date_to_periodM, hyphenBranch_eq_none hh, hws]
    show y ++ '-' :: (MONTH_MAP.lookup mon).getD "01".data = y ++ "-01".data
    rw [hlook]
    rfl
  · rw [Scraper.parse_date_to_periodM, hws, month_map_eq_MONTH_MAP]
    show y ++ '-' :: (MONTH_MAP.lookup mon).getD "01".data = y ++ "-01".data
    rw [hlook]
    rfl

theorem claim_C4_amended_witness :
    ProcessAndZip.parse_date_to_periodM "Xyz 2031".data = "2031".data ++ "-01".data ∧
    Scraper.parse_date_to_periodM "Xyz 2031".data = "2031".data ++ "-01".data :=
  claim_C4_amended "Xyz 2031".data "Xyz".data "2031".data (by decide) (by decide) (by decide)

/-! ### Claim C6: toDisplayLabel on malformed PeriodKeys -/

/-- Claim C6 counterexample: neither implementation returns every malformed
PeriodKey unchanged.  On 2025-13 (unknown month number) the batch
implementation substitutes the default month and returns jan-2025; on
abc-11 (known month number, left part that is not a year) both
implementations rewrite, the scraper included, returning nov-abc. -/
theorem claim_C6_counterexample :
    ProcessAndZip.periodM_to_mmm_yyyy "2025-13".data = "jan-2025".data ∧
    ProcessAndZip.periodM_to_mmm_yyyy "2025-13".data ≠ "2025-13".data ∧
    Scraper.periodM_to_mmm_yyyy "abc-11".data = "nov-abc".data ∧
    Scraper.periodM_to_mmm_yyyy "abc-11".data ≠ "abc-11".data ∧
    ProcessAndZip.periodM_to_mmm_yyyy "abc-11".data = "nov-abc".data := by
  decide

/-- Claim C6 amended: both implementations return the input unchanged when
it does not split into exactly two hyphen-separated parts.  On a two-part
split neither validates the left part as a year: with a known two-digit
month number both rewrite the input to mon-(left part) even when the left
part is no year; with an unknown month number the scraper implementation
returns the input unchanged while the batch implementation substitutes the
default abbreviation and returns jan-(left part). -/
theorem claim_C6_amended (p y mm mon K : Str) (KS : List Str) :
    ((pySplitChar '-' p).length ≠ 2 →
      Scraper.periodM_to_mmm_yyyy p = p ∧ ProcessAndZip.periodM_to_mmm_yyyy p = p) ∧
    (pySplitChar '-' p = [y, mm] →
      NUM_TO_MONTH.lookup mm = none →
      Scraper.month_map.filter (fun kv => kv.2 == mm) = [] →
      Scraper.periodM_to_mmm_yyyy p = p ∧
      ProcessAndZip.periodM_to_mmm_yyyy p = "jan".data ++ '-' :: y) ∧
    (pySplitChar '-' p = [y, mm] →
      NUM_TO_MONTH.lookup mm = some mon →
      (Scraper.month_map.filter (fun kv => kv.2 == mm)).map Prod.fst = K :: KS →
      ProcessAndZip.periodM_to_mmm_yyyy p = mon ++ '-' :: y ∧
      Scraper.periodM_to_mmm_yyyy p = pyLower K ++ '-' :: y) := by
  refine ⟨?_, ?_, ?_⟩
  · intro hlen
    rcases hsp : pySplitChar '-' p with _ | ⟨a, _ | ⟨b, _ | ⟨c, t⟩⟩⟩
    · exact ⟨by rw [Scraper.periodM_to_mmm_yyyy, hsp], by
        rw [ProcessAndZip.periodM_to_mmm_yyyy, hsp]⟩
    · exact ⟨by rw [Scraper.periodM_to_mmm_yyyy, hsp], by
        rw [ProcessAndZip.periodM_to_mmm_yyyy, hsp]⟩
    · exact absurd (by rw [hsp]; rfl) hlen
    · exact ⟨by
        rw [Scraper.periodM_to_mmm_yyyy, hsp], by
        rw [ProcessAndZip.periodM_to_mmm_yyyy, hsp]⟩
  · intro hsp hnum hfil
    constructor
    · rw [Scraper.periodM_to_mmm_yyyy, hsp]
      show (match (Scraper.month_map.filter (fun kv => kv.2 == mm)).map Prod.fst with
        | [] => p
        | k :: _ => pyLower k ++ '-' :: y) = p
      rw [hfil]
      rfl
    · rw [ProcessAndZip.periodM_to_mmm_yyyy, hsp]
      show ((NUM_TO_MONTH.lookup mm).getD "jan".data) ++ '-' :: y = "jan".data ++ '-' :: y
      rw [hnum]
      rfl
  · intro hsp hlook hfil
    constructor
    · rw [ProcessAndZip.periodM_to_mmm_yyyy, hsp]
      show ((NUM_TO_MONTH.lookup mm).getD "jan".data) ++ '-' :: y = mon ++ '-' :: y
      rw [hlook]
      rfl
    · rw [Scraper.periodM_to_mmm_yyyy, hsp]
      show (match (Scraper.month_map.filter (fun kv => kv.2 == mm)).map Prod.fst with
        | [] => p
        | k :: _ => pyLower k ++ '-' :: y) = pyLower K ++ '-' :: y
      rw [hfil]

theorem claim_C6_amended_witness :
    (Scraper.periodM_to_mmm_yyyy "2025-13".data = "2025-13".data ∧
     ProcessAndZip.periodM_to_mmm_yyyy "2025-13".data = "jan".data ++ '-' :: "2025".data) ∧
    (ProcessAndZip.periodM_to_mmm_yyyy "abc-11".data = "nov".data ++ '-' :: "abc".data ∧
     Scraper.periodM_to_mmm_yyyy "abc-11".data = pyLower "Nov".data ++ '-' :: "abc".data) :=
  ⟨(claim_C6_amended "2025-13".data "2025".data "13".data "jan".data "Jan".data []).2.1
      (by decide) (by decide) (by decide),
   (claim_C6_amended "abc-11".data "abc".data "11".data "nov".data "Nov".data []).2.2
      (by decide) (by decide) (by decide)⟩

/-! ### Claim C1: ascending order holds in every sort outcome, stability does not -/

theorem processRel_spec {parse display : Str → Str} {df out : List Row} (hne : df ≠ [])
    (h : processRel parse display df out) :
    ∃ keyed : List KeyedRow, List.Sorted keyLE keyed ∧
      keyed.Perm (keyedRows parse df) ∧
      out = keyed.map (relabelRow display) ∧
      out.Perm (df.map (fun r => (display (parse r.1), r.2))) ∧
      ∀ i j : Fin keyed.length, i < j → keyLE (keyed.get i) (keyed.get j) := by
  rcases h with ⟨he, _⟩ | ⟨_, s, ⟨hp, hs⟩, rfl⟩
  · exact absurd (by simpa [List.isEmpty_iff] using he) hne
  · refine ⟨s, hs, hp, rfl, ?_, ?_⟩
    · have h1 : (s.map (relabelRow display)).Perm
          ((keyedRows parse df).map (relabelRow display)) := hp.map _
      have h2 : (keyedRows parse df).map (relabelRow display) =
          df.map (fun r => (display (parse r.1), r.2)) := by
        rw [keyedRows, List.map_map]
        rfl
      exact h2 ▸ h1
    · intro i j hij
      exact List.pairwise_iff_get.mp hs i j hij

/-- Claim C1 counterexample: for a dataset with two rows of equal derived
PeriodKey, the sort contract of both normalizers (pandas sort_values with
its default, documented-unstable quicksort kind) admits an outcome in which
the two rows appear in reversed relative order, alongside the
order-preserving outcome; both satisfy the normalization relation and they
differ, so equal-key rows are not guaranteed to keep their original
relative order. -/
theorem claim_C1_counterexample :
    ProcessAndZip.process_dataframe_rel
      [("Jan 2020".data, ["a".data]), ("Jan 2020".data, ["b".data])]
      [("jan-2020".data, ["a".data]), ("jan-2020".data, ["b".data])] ∧
    ProcessAndZip.process_dataframe_rel
      [("Jan 2020".data, ["a".data]), ("Jan 2020".data, ["b".data])]
      [("jan-2020".data, ["b".data]), ("jan-2020".data, ["a".data])] ∧
    Scraper.process_dates_rel
      [("Jan 2020".data, ["a".data]), ("Jan 2020".data, ["b".data])]
      [("jan-2020".data, ["b".data]), ("jan-2020".data, ["a".data])] ∧
    ([("jan-2020".data, ["b".data]), ("jan-2020".data, ["a".data])] : List Row) ≠
      [("jan-2020".data, ["a".data]), ("jan-2020".data, ["b".data])] :=
  ⟨Or.inr ⟨by decide,
      [("2020-01".data, ("Jan 2020".data, ["a".data])),
       ("2020-01".data, ("Jan 2020".data, ["b".data]))],
      ⟨by decide, by decide⟩, by decide⟩,
   Or.inr ⟨by decide,
      [("2020-01".data, ("Jan 2020".data, ["b".data])),
       ("2020-01".data, ("Jan 2020".data, ["a".data]))],
      ⟨by decide, by decide⟩, by decide⟩,
   Or.inr ⟨by decide,
      [("2020-01".data, ("Jan 2020".data, ["b".data])),
       ("2020-01".data, ("Jan 2020".data, ["a".data]))],
      ⟨by decide, by decide⟩, by decide⟩,
   by decide⟩

/-- Claim C1 amended: for every nonempty dataset, every admissible output
of either normalizer (process_dataframe in the batch re-normalizer,
process_dates in the scraper) arises from a keyed list that is a
permutation of the decorated input rows and is ascending by the derived
PeriodKey (for all positions i < j, the key at i is at most the key at j),
with the Date column rewritten via the display function; the output is a
permutation of the pointwise-normalized rows.  The relative order of
equal-PeriodKey rows is not specified by the sort contract. -/
theorem claim_C1_amended (df outPZ outScr : List Row) (hne : df ≠ [])
    (hpz : ProcessAndZip.process_dataframe_rel df outPZ)
    (hscr : Scraper.process_dates_rel df outScr) :
    (∃ keyed : List KeyedRow, List.Sorted keyLE keyed ∧
      keyed.Perm (keyedRows ProcessAndZip.parse_date_to_periodM df) ∧
      outPZ = keyed.map (relabelRow ProcessAndZip.periodM_to_mmm_yyyy) ∧
      outPZ.Perm (df.map (fun r =>
        (ProcessAndZip.periodM_to_mmm_yyyy (ProcessAndZip.parse_date_to_periodM r.1),
          r.2))) ∧
      ∀ i j : Fin keyed.length, i < j → keyLE (keyed.get i) (keyed.get j)) ∧
    (∃ keyed : List KeyedRow, List.Sorted keyLE keyed ∧
      keyed.Perm (keyedRows Scraper.parse_date_to_periodM df) ∧
      outScr = keyed.map (relabelRow Scraper.periodM_to_mmm_yyyy) ∧
      outScr.Perm (df.map (fun r =>
        (Scraper.periodM_to_mmm_yyyy (Scraper.parse_date_to_periodM r.1), r.2))) ∧
      ∀ i j : Fin keyed.length, i < j → keyLE (keyed.get i) (keyed.get j)) :=
  ⟨processRel_spec hne hpz, processRel_spec hne hscr⟩

theorem claim_C1_witness :
    ∃ keyed : List KeyedRow, List.Sorted keyLE keyed ∧
      keyed.Perm (keyedRows ProcessAndZip.parse_date_to_periodM
        [("Jan 2020".data, ["a".data]), ("Nov 2019".data, ["b".data])]) ∧
      ([("nov-2019".data, ["b".data]), ("jan-2020".data, ["a".data])] : List Row) =
        keyed.map (relabelRow ProcessAndZip.periodM_to_mmm_yyyy) ∧
      ([("nov-2019".data, ["b".data]), ("jan-2020".data, ["a".data])] : List Row).Perm
        (([("Jan 2020".data, ["a".data]), ("Nov 2019".data, ["b".data])] : List Row).map
          (fun r => (ProcessAndZip.periodM_to_mmm_yyyy
            (ProcessAndZip.parse_date_to_periodM r.1), r.2))) ∧
      ∀ i j : Fin keyed.length, i < j → keyLE (keyed.get i) (keyed.get j) :=
  (claim_C1_amended
    [("Jan 2020".data, ["a".data]), ("Nov 2019".data, ["b".data])]
    [("nov-2019".data, ["b".data]), ("jan-2020".data, ["a".data])]
    [("nov-2019".data, ["b".data]), ("jan-2020".data, ["a".data])]
    (by decide)
    (Or.inr ⟨by decide,
      [("2019-11".data, ("Nov 2019".data, ["b".data])),
       ("2020-01".data, ("Jan 2020".data, ["a".data]))],
      ⟨by decide, by decide⟩, by decide⟩)
    (Or.inr ⟨by decide,
      [("2019-11".data, ("Nov 2019".data, ["b".data])),
       ("2020-01".data, ("Jan 2020".data, ["a".data]))],
      ⟨by decide, by decide⟩, by decide⟩)).1

/-! ### Claim C9: idempotence of batch re-normalization on canonical data -/

theorem parse_canonical_core {m0 m1 m2 c1 c2 c3 c4 : Char} {K num : Str}
    (hm0 : m0.isWhitespace = false)
    (hma : ('-' : Char) ∉ ([m0, m1, m2] : Str))
    (hd1 : c1.isDigit = true) (hd2 : c2.isDigit = true)
    (hd3 : c3.isDigit = true) (hd4 : c4.isDigit = true)
    (hcap : pyCapitalize [m0, m1, m2] = K)
    (hlook : MONTH_MAP.lookup K = some num) :
    ProcessAndZip.parse_date_to_periodM ([m0, m1, m2] ++ '-' :: [c1, c2, c3, c4]) =
      [c1, c2, c3, c4] ++ '-' :: num := by
  have hmb : ('-' : Char) ∉ ([c1, c2, c3, c4] : Str) := by
    simp only [List.mem_cons, List.not_mem_nil, or_false]
    push_neg
    exact ⟨Ne.symm (isDigit_ne_hyphen hd1), Ne.symm (isDigit_ne_hyphen hd2),
      Ne.symm (isDigit_ne_hyphen hd3), Ne.symm (isDigit_ne_hyphen hd4)⟩
  have hstrip : pyStrip ([m0, m1, m2] ++ '-' :: [c1, c2, c3, c4]) =
      [m0, m1, m2] ++ '-' :: [c1, c2, c3, c4] :=
    pyStrip_eq_self hm0 (isDigit_not_ws hd4)
  have hsplit : pySplitChar '-' ([m0, m1, m2] ++ '-' :: [c1, c2, c3, c4]) =
      [[m0, m1, m2], [c1, c2, c3, c4]] := pySplitChar_append hma hmb
  have hmem : ('-' : Char) ∈ ([m0, m1, m2] ++ '-' :: [c1, c2, c3, c4] : Str) := by simp
  have hb : ProcessAndZip.hyphenBranch ([m0, m1, m2] ++ '-' :: [c1, c2, c3, c4]) =
      some ([c1, c2, c3, c4] ++ '-' :: num) := by
    rw [ProcessAndZip.hyphenBranch, hsplit, if_pos ⟨hmem, rfl⟩]
    show (if ([m0, m1, m2] : Str).length = 3 ∧ ([c1, c2, c3, c4] : Str).length = 4 then
        some ([c1, c2, c3, c4] ++ '-' ::
          ((MONTH_MAP.lookup (pyCapitalize [m0, m1, m2])).getD "01".data))
      else none) = some ([c1, c2, c3, c4] ++ '-' :: num)
    rw [if_pos ⟨rfl, rfl⟩, hcap, hlook]
    rfl
  rw [ProcessAndZip.parse_date_to_periodM, hstrip, hb]

theorem display_canonical_core {c1 c2 c3 c4 : Char} {num mon : Str}
    (hd1 : c1.isDigit = true) (hd2 : c2.isDigit = true)
    (hd3 : c3.isDigit = true) (hd4 : c4.isDigit = true)
    (hnum : ('-' : Char) ∉ num)
    (hlook2 : NUM_TO_MONTH.lookup num = some mon) :
    ProcessAndZip.periodM_to_mmm_yyyy ([c1, c2, c3, c4] ++ '-' :: num) =
      mon ++ '-' :: [c1, c2, c3, c4] := by
  have hmb : ('-' : Char) ∉ ([c1, c2, c3, c4] : Str) := by
    simp only [List.mem_cons, List.not_mem_nil, or_false]
    push_neg
    exact ⟨Ne.symm (isDigit_ne_hyphen hd1), Ne.symm (isDigit_ne_hyphen hd2),
      Ne.symm (isDigit_ne_hyphen hd3), Ne.symm (isDigit_ne_hyphen hd4)⟩
  have hsplit : pySplitChar '-' ([c1, c2, c3, c4] ++ '-' :: num) =
      [[c1, c2, c3, c4], num] := pySplitChar_append hmb hnum
  rw [ProcessAndZip.periodM_to_mmm_yyyy, hsplit]
  show ((NUM_TO_MONTH.lookup num).getD "jan".data) ++ '-' :: [c1, c2, c3, c4] =
    mon ++ '-' :: [c1, c2, c3, c4]
  rw [hlook2]
  rfl

theorem canonical_roundtrip {k v y : Str} (hkv : (k, v) ∈ MONTH_MAP)
    (hy4 : y.length = 4) (hyd : ∀ c ∈ y, c.isDigit = true) :
    ProcessAndZip.parse_date_to_periodM (pyLower k ++ '-' :: y) = y ++ '-' :: v ∧
    ProcessAndZip.periodM_to_mmm_yyyy (y ++ '-' :: v) = pyLower k ++ '-' :: y := by
  obtain ⟨c1, c2, c3, c4, rfl⟩ : ∃ a b c d, y = ([a, b, c, d] : Str) := by
    rcases y with _ | ⟨a, _ | ⟨b, _ | ⟨c, _ | ⟨d, _ | ⟨e, t⟩⟩⟩⟩⟩
    · simp at hy4
    · simp at hy4
    · simp at hy4
    · simp at hy4
    · exact ⟨a, b, c, d, rfl⟩
    · simp at hy4
  have hd1 := hyd c1 (by simp)
  have hd2 := hyd c2 (by simp)
  have hd3 := hyd c3 (by simp)
  have hd4 := hyd c4 (by simp)
  fin_cases hkv <;>
    exact ⟨parse_canonical_core (by decide) (by decide) hd1 hd2 hd3 hd4 rfl rfl,
      display_canonical_core hd1 hd2 hd3 hd4 (by decide) rfl⟩

theorem canonical_display_parse {d : Str} (h : CanonicalDate d) :
    ProcessAndZip.periodM_to_mmm_yyyy (ProcessAndZip.parse_date_to_periodM d) = d := by
  obtain ⟨k, v, y, hkv, rfl, hy4, hyd⟩ := h
  obtain ⟨hp, hd⟩ := canonical_roundtrip hkv hy4 hyd
  rw [hp, hd]

theorem sorted_perm_eq_of_nodup_keys :
    ∀ {s1 s2 : List KeyedRow}, s2.Perm s1 → List.Sorted keyLE s1 →
      List.Sorted keyLE s2 → (s1.map Prod.fst).Nodup → s2 = s1 := by
  intro s1
  induction s1 with
  | nil =>
    intro s2 hp _ _ _
    exact hp.eq_nil
  | cons a t1 ih =>
    intro s2 hp hs1 hs2 hnd
    cases s2 with
    | nil => exact absurd hp.symm.eq_nil (by simp)
    | cons b t2 =>
      have hb : b = a := by
        have hbmem : b ∈ a :: t1 := hp.mem_iff.mp (List.mem_cons_self b t2)
        rcases List.mem_cons.mp hbmem with h | hbt
        · exact h
        · have hamem : a ∈ b :: t2 := hp.symm.mem_iff.mp (List.mem_cons_self a t1)
          rcases List.mem_cons.mp hamem with h | hat
          · exact h.symm
          · have h1 : keyLE a b := (List.sorted_cons.mp hs1).1 b hbt
            have h2 : keyLE b a := (List.sorted_cons.mp hs2).1 a hat
            have h1le : a.1 ≤ b.1 := h1
            have h2le : b.1 ≤ a.1 := h2
            have hkey : b.1 = a.1 := le_antisymm h2le h1le
            exfalso
            rw [List.map_cons, List.nodup_cons] at hnd
            exact hnd.1 (hkey ▸ List.mem_map_of_mem Prod.fst hbt)
      subst hb
      rw [List.map_cons, List.nodup_cons] at hnd
      rw [ih hp.cons_inv (List.sorted_cons.mp hs1).2 (List.sorted_cons.mp hs2).2 hnd.2]

/-- Claim C9 counterexample: on a canonical dataset with two rows carrying
the same date label, the first pass admits the identity outcome, and the
second pass applied to that output admits the outcome that swaps the two
tied rows (the sort contract does not fix tie order); the two results
differ, so normalize(normalize(rows)) = normalize(rows) is not guaranteed
by the code. -/
theorem claim_C9_counterexample :
    ProcessAndZip.process_dataframe_rel
      [("nov-2025".data, ["a".data]), ("nov-2025".data, ["b".data])]
      [("nov-2025".data, ["a".data]), ("nov-2025".data, ["b".data])] ∧
    ProcessAndZip.process_dataframe_rel
      [("nov-2025".data, ["a".data]), ("nov-2025".data, ["b".data])]
      [("nov-2025".data, ["b".data]), ("nov-2025".data, ["a".data])] ∧
    ([("nov-2025".data, ["b".data]), ("nov-2025".data, ["a".data])] : List Row) ≠
      [("nov-2025".data, ["a".data]), ("nov-2025".data, ["b".data])] ∧
    ∀ r ∈ ([("nov-2025".data, ["a".data]), ("nov-2025".data, ["b".data])] : List Row),
      CanonicalDate r.1 := by
  refine ⟨Or.inr ⟨by decide,
      [("2025-11".data, ("nov-2025".data, ["a".data])),
       ("2025-11".data, ("nov-2025".data, ["b".data]))],
      ⟨by decide, by decide⟩, by decide⟩,
    Or.inr ⟨by decide,
      [("2025-11".data, ("nov-2025".data, ["b".data])),
       ("2025-11".data, ("nov-2025".data, ["a".data]))],
      ⟨by decide, by decide⟩, by decide⟩,
    by decide, ?_⟩
  intro r hr
  simp only [List.mem_cons, List.not_mem_nil, or_false] at hr
  rcases hr with rfl | rfl <;>
    exact ⟨"Nov".data, "11".data, "2025".data, by decide, by decide, by decide, by decide⟩

/-- Claim C9 amended: batch re-normalization is idempotent on canonical
datasets whose date labels are pairwise distinct: distinct canonical labels
give distinct PeriodKeys, the ascending permutation is then unique, and
every admissible second-pass output equals the first-pass output.  With
duplicate canonical labels the unstable sort contract admits second passes
that permute tied rows, so idempotence is not guaranteed (see the
counterexample). -/
theorem claim_C9_amended (df out1 out2 : List Row)
    (hcanon : ∀ r ∈ df, CanonicalDate r.1)
    (hnodup : (df.map Prod.fst).Nodup)
    (h1 : ProcessAndZip.process_dataframe_rel df out1)
    (h2 : ProcessAndZip.process_dataframe_rel out1 out2) :
    out2 = out1 := by
  rcases h1 with ⟨he1, rfl⟩ | ⟨he1, s1, ⟨hperm1, hsort1⟩, rfl⟩
  · rcases h2 with ⟨_, rfl⟩ | ⟨he2, _⟩
    · rfl
    · rw [he1] at he2
      cases he2
  · have hdfne : df ≠ [] := by
      intro hnil
      rw [hnil] at he1
      cases he1
    have hmemfact : ∀ kr ∈ s1,
        ProcessAndZip.periodM_to_mmm_yyyy kr.1 = kr.2.1 ∧
        ProcessAndZip.parse_date_to_periodM kr.2.1 = kr.1 := by
      intro kr hkr
      have hkr2 : kr ∈ keyedRows ProcessAndZip.parse_date_to_periodM df :=
        hperm1.mem_iff.mp hkr
      simp only [keyedRows, List.mem_map] at hkr2
      obtain ⟨r, hr, rfl⟩ := hkr2
      obtain ⟨k, v, y, hkv, hdate, hy4, hyd⟩ := hcanon r hr
      obtain ⟨hp, hd⟩ := canonical_roundtrip hkv hy4 hyd
      constructor
      · show ProcessAndZip.periodM_to_mmm_yyyy (ProcessAndZip.parse_date_to_periodM r.1) = r.1
        rw [hdate, hp, hd]
      · rfl
    have hkeyed : keyedRows ProcessAndZip.parse_date_to_periodM
        (s1.map (relabelRow ProcessAndZip.periodM_to_mmm_yyyy)) = s1 := by
      rw [keyedRows, List.map_map]
      have hcong : ∀ kr ∈ s1,
          ((fun r => (ProcessAndZip.parse_date_to_periodM r.1, r)) ∘
            relabelRow ProcessAndZip.periodM_to_mmm_yyyy) kr = id kr := by
        intro kr hkr
        obtain ⟨hdisp, hparse⟩ := hmemfact kr hkr
        simp only [Function.comp, relabelRow, id, hdisp, hparse]
      rw [List.map_congr_left hcong, List.map_id]
    have hne1 : s1.map (relabelRow ProcessAndZip.periodM_to_mmm_yyyy) ≠ [] := by
      intro hnil
      apply hdfne
      have hlen := congrArg List.length hnil
      rw [List.length_map, hperm1.length_eq, keyedRows, List.length_map,
        List.length_nil] at hlen
      exact List.length_eq_zero.mp hlen
    rcases h2 with ⟨he2, _⟩ | ⟨he2, s2, ⟨hperm2, hsort2⟩, rfl⟩
    · exact absurd (by simpa [List.isEmpty_iff] using he2) hne1
    · rw [hkeyed] at hperm2
      have hkeysnd : (s1.map Prod.fst).Nodup := by
        have hinj : ∀ x ∈ df.map Prod.fst, ∀ z ∈ df.map Prod.fst,
            ProcessAndZip.parse_date_to_periodM x =
              ProcessAndZip.parse_date_to_periodM z → x = z := by
          intro x hx z hz he
          obtain ⟨rx, hrx, hrx1⟩ := List.mem_map.mp hx
          obtain ⟨rz, hrz, hrz1⟩ := List.mem_map.mp hz
          have hcx : CanonicalDate x := hrx1 ▸ hcanon rx hrx
          have hcz : CanonicalDate z := hrz1 ▸ hcanon rz hrz
          calc x = ProcessAndZip.periodM_to_mmm_yyyy
                (ProcessAndZip.parse_date_to_periodM x) :=
                (canonical_display_parse hcx).symm
            _ = ProcessAndZip.periodM_to_mmm_yyyy
                (ProcessAndZip.parse_date_to_periodM z) := by rw [he]
            _ = z := canonical_display_parse hcz
        have hnd2 : ((df.map Prod.fst).map ProcessAndZip.parse_date_to_periodM).Nodup :=
          hnodup.map_on hinj
        have hmapeq : (keyedRows ProcessAndZip.parse_date_to_periodM df).map Prod.fst =
            (df.map Prod.fst).map ProcessAndZip.parse_date_to_periodM := by
          rw [keyedRows, List.map_map, List.map_map]
          rfl
        exact ((hperm1.map Prod.fst).nodup_iff).mpr (hmapeq ▸ hnd2)
      rw [sorted_perm_eq_of_nodup_keys hperm2 hsort1 hsort2 hkeysnd]

theorem claim_C9_witness :
    ([("jan-2024".data, ["b".data]), ("nov-2025".data, ["a".data])] : List Row) =
      [("jan-2024".data, ["b".data]), ("nov-2025".data, ["a".data])] :=
  claim_C9_amended [("nov-2025".data, ["a".data]), ("jan-2024".data, ["b".data])]
    [("jan-2024".data, ["b".data]), ("nov-2025".data, ["a".data])]
    [("jan-2024".data, ["b".data]), ("nov-2025".data, ["a".data])]
    (by
      intro r hr
      simp only [List.mem_cons, List.not_mem_nil, or_false] at hr
      rcases hr with rfl | rfl
      · exact ⟨"Nov".data, "11".data, "2025".data, by decide, by decide, by decide, by decide⟩
      · exact ⟨"Jan".data, "01".data, "2024".data, by decide, by decide, by decide, by decide⟩)
    (by decide)
    (Or.inr ⟨by decide,
      [("2024-01".data, ("jan-2024".data, ["b".data])),
       ("2025-11".data, ("nov-2025".data, ["a".data]))],
      ⟨by decide, by decide⟩, by decide⟩)
    (Or.inr ⟨by decide,
      [("2024-01".data, ("jan-2024".data, ["b".data])),
       ("2025-11".data, ("nov-2025".data, ["a".data]))],
      ⟨by decide, by decide⟩, by decide⟩)

/-! ### Claim C8: archive entry naming and content -/

theorem run_filename_shapes :
    ∀ x ∈ all_run_filenames,
      x = x.take (x.length - 4) ++ ".txt".data ∧
      replaceTxtWithCsv x = x.take (x.length - 4) ++ ".csv".data := by
  decide

theorem run_filename_inj :
    ∀ x ∈ all_run_filenames, ∀ z ∈ all_run_filenames,
      replaceTxtWithCsv x = replaceTxtWithCsv z → x = z := by
  decide

theorem countP_fst_eq_one {α : Type} {files : List (Str × α)} {n : Str}
    (hnd : (files.map Prod.fst).Nodup) {c : α} (hmem : (n, c) ∈ files) :
    files.countP (fun f => f.1 == n) = 1 := by
  induction files with
  | nil => cases hmem
  | cons f t ih =>
    rw [List.map_cons, List.nodup_cons] at hnd
    rcases List.mem_cons.mp hmem with heq | hmt
    · have hf1 : f.1 = n := by rw [← heq]
      have ht0 : t.countP (fun g => g.1 == n) = 0 := by
        rw [List.countP_eq_zero]
        intro a ha
        simp only [beq_iff_eq]
        intro he
        exact hnd.1 (hf1 ▸ he ▸ List.mem_map_of_mem Prod.fst ha)
      simp [List.countP_cons, ht0, hf1]
    · have hne : (f.1 == n) = false := by
        simp only [beq_eq_false_iff_ne, ne_eq]
        intro he
        exact hnd.1 (he ▸ List.mem_map_of_mem Prod.fst hmt)
      rw [List.countP_cons, ih hnd.2 hmt, hne]
      rfl

/-- Claim C8: for a set of persisted dataset files all drawn from the run
naming pattern, with pairwise distinct names, the archive holds for each
source file exactly one entry whose name is the source basename with its
extension replaced (.txt to .csv) and whose content is identical to the
source bytes; the source list itself carries .txt names and is only read,
never renamed. -/
theorem claim_C8 {α : Type} (files : List (Str × α))
    (hsub : ∀ f ∈ files, f.1 ∈ all_run_filenames)
    (hnd : (files.map Prod.fst).Nodup)
    (n : Str) (c : α) (hmem : (n, c) ∈ files) :
    ∃ stem, n = stem ++ ".txt".data ∧
      (stem ++ ".csv".data, c) ∈ create_zip_archive files ∧
      (create_zip_archive files).countP (fun e => e.1 == stem ++ ".csv".data) = 1 := by
  have hn : n ∈ all_run_filenames := hsub (n, c) hmem
  obtain ⟨htxt, hcsv⟩ := run_filename_shapes n hn
  refine ⟨n.take (n.length - 4), htxt, ?_, ?_⟩
  · rw [← hcsv, create_zip_archive]
    exact List.mem_map_of_mem (fun f => (replaceTxtWithCsv f.1, f.2)) hmem
  · rw [create_zip_archive, List.countP_map]
    have hcong : ∀ f ∈ files,
        ((replaceTxtWithCsv f.1 == n.take (n.length - 4) ++ ".csv".data) = true ↔
          (f.1 == n) = true) := by
      intro f hf
      have hf1 := hsub f hf
      simp only [beq_iff_eq]
      constructor
      · intro he
        exact run_filename_inj f.1 hf1 n hn (by rw [he, hcsv])
      · intro he
        rw [he, hcsv]
    calc files.countP
          (fun f => replaceTxtWithCsv f.1 == n.take (n.length - 4) ++ ".csv".data)
        = files.countP (fun f => f.1 == n) := List.countP_congr hcong
      _ = 1 := countP_fst_eq_one hnd hmem

theorem claim_C8_witness :
    ∃ stem,
      generate_filename "HDB".data "Resale".data "All".data = stem ++ ".txt".data ∧
      (stem ++ ".csv".data, 7) ∈ create_zip_archive
        [(generate_filename "HDB".data "Resale".data "All".data, (7 : Nat))] ∧
      (create_zip_archive
        [(generate_filename "HDB".data "Resale".data "All".data, (7 : Nat))]).countP
          (fun e => e.1 == stem ++ ".csv".data) = 1 :=
  claim_C8 [(generate_filename "HDB".data "Resale".data "All".data, (7 : Nat))]
    (by decide) (by decide)
    (generate_filename "HDB".data "Resale".data "All".data) 7 (by decide)
